import Mathlib

/-!
# Verification of the code2prompt Python binding layer

This file embeds the Python binding layer of the code2prompt repository
(`code2prompt_rs/code2prompt.py` and `code2prompt_rs/code2promp_rs.py`)
shallowly in Lean, together with a model — written from the specification —
of the compiled Rust session engine that the binding delegates to (the
engine itself is not part of the visible source set).

The binding is translated statement by statement: local variables become
`let` bindings, the fluent Rust setters become pure functions on a
configuration record (the spec mandates copy-on-write setters returning an
updated session), Python truthiness tests (`if encoding:`,
`include_patterns or []`) become explicit emptiness tests, and the
`try/except` around `session.token_count()` becomes a `match` on an
`Except` value.  Methods that could in principle mutate `self` are embedded
as state transformers returning the (possibly updated) object next to the
result, so that frame properties are actual theorems about the embedding.
-/

/-- Session configuration record.  Mirrors the SessionConfig data model of
the spec (§3): the fields are exactly the arguments the binding marshals
into the Rust session via the fluent setters, plus the token-encoding name
and the template source set by `with_token_encoding` / `with_template`. -/
structure SessionConfig where
  path : String
  include_patterns : List String
  exclude_patterns : List String
  include_priority : Bool
  line_numbers : Bool
  absolute_paths : Bool
  full_directory_tree : Bool
  code_blocks : Bool
  follow_symlinks : Bool
  include_hidden : Bool
  token_encoding : Option String
  template : Option String
deriving Repr, DecidableEq

/-- Modelled from the spec: `rust_sdk.PyCode2PromptSession(path)` constructs
a fresh session for a root path; no patterns, all optional behaviour off,
code blocks on, no explicit encoding or template (§6 construction
boundary). -/
def PySession.new (path : String) : SessionConfig :=
  { path := path
    include_patterns := []
    exclude_patterns := []
    include_priority := false
    line_numbers := false
    absolute_paths := false
    full_directory_tree := false
    code_blocks := true
    follow_symlinks := false
    include_hidden := false
    token_encoding := none
    template := none }

/-- Modelled from the spec: fluent setter `include(patterns)`; pattern-set
accumulation is additive within the include set (§4.7). -/
def PySession.includePatterns (s : SessionConfig) (pats : List String) : SessionConfig :=
  { s with include_patterns := s.include_patterns ++ pats }

/-- Modelled from the spec: fluent setter `exclude(patterns)`; additive
within the exclude set (§4.7). -/
def PySession.excludePatterns (s : SessionConfig) (pats : List String) : SessionConfig :=
  { s with exclude_patterns := s.exclude_patterns ++ pats }

/-- Modelled from the spec: fluent setter `include_priority(bool)` (§6). -/
def PySession.include_priority (s : SessionConfig) (b : Bool) : SessionConfig :=
  { s with include_priority := b }

/-- Modelled from the spec: fluent setter `with_line_numbers(bool)` (§6). -/
def PySession.with_line_numbers (s : SessionConfig) (b : Bool) : SessionConfig :=
  { s with line_numbers := b }

/-- Modelled from the spec: fluent setter `with_absolute_paths(bool)` (§6). -/
def PySession.with_absolute_paths (s : SessionConfig) (b : Bool) : SessionConfig :=
  { s with absolute_paths := b }

/-- Modelled from the spec: fluent setter `with_full_directory_tree(bool)` (§6). -/
def PySession.with_full_directory_tree (s : SessionConfig) (b : Bool) : SessionConfig :=
  { s with full_directory_tree := b }

/-- Modelled from the spec: fluent setter `with_code_blocks(bool)` (§6). -/
def PySession.with_code_blocks (s : SessionConfig) (b : Bool) : SessionConfig :=
  { s with code_blocks := b }

/-- Modelled from the spec: fluent setter `follow_symlinks(bool)` (§6). -/
def PySession.follow_symlinks (s : SessionConfig) (b : Bool) : SessionConfig :=
  { s with follow_symlinks := b }

/-- Modelled from the spec: fluent setter `include_hidden(bool)` (§6). -/
def PySession.include_hidden (s : SessionConfig) (b : Bool) : SessionConfig :=
  { s with include_hidden := b }

/-- Modelled from the spec: fluent setter `with_token_encoding(name)` (§6). -/
def PySession.with_token_encoding (s : SessionConfig) (name : String) : SessionConfig :=
  { s with token_encoding := some name }

/-- Modelled from the spec: fluent setter `with_template(text)` (§6). -/
def PySession.with_template (s : SessionConfig) (text : String) : SessionConfig :=
  { s with template := some text }

/-- Modelled from the spec: the compiled Rust engine behind
`PyCode2PromptSession`.  Each action method is a function of the session
configuration (the file tree under the root is fixed during a run, so it is
absorbed into the functions); using plain functions captures the spec
guarantee that the engine is deterministic for a fixed tree and
configuration.  `token_count` is fallible (`Except`): the spec requires the
core to surface an unknown-encoding error distinctly from a legitimate
zero (§4.5, §7). -/
structure RustEngine where
  generate : SessionConfig → String
  token_count : SessionConfig → Except String Nat
  info : SessionConfig → List (String × String)

/-- Python truthiness of an optional string argument: `None` and the empty
string are falsy, as in `if encoding:` / `if template:` in
`Code2Prompt.generate` and `Code2Prompt.token_count`. -/
def pyTruthyStr (x : Option String) : Bool :=
  match x with
  | none => false
  | some s => !s.isEmpty

/-- `if x: session = f(session, x)` for an optional string argument `x`,
as written in `Code2Prompt.generate` lines 83–87 and
`Code2Prompt.token_count` lines 109–110. -/
def applyOptStr (f : SessionConfig → String → SessionConfig)
    (s : SessionConfig) (x : Option String) : SessionConfig :=
  match x with
  | none => s
  | some v => if v.isEmpty then s else f s v

/-- `x or []` for an optional list argument, as in
`self.include_patterns = include_patterns or []` (`__init__` lines 33–34):
`None` and the empty list are both falsy and yield `[]`. -/
def pyOrList (x : Option (List String)) : List String :=
  match x with
  | none => []
  | some l => if l.isEmpty then [] else l

/-- `RenderedPrompt` from `code2prompt.py` lines 5–10: exactly the four
fields the constructor stores. -/
structure RenderedPrompt where
  prompt : String
  token_count : Nat
  directory : String
  model_info : List (String × String)
deriving Repr, DecidableEq

/-- The `Code2Prompt` object from `code2prompt.py`: the ten configuration
attributes stored by `__init__` (lines 32–41) plus the `_session` field
(line 44). -/
structure Code2Prompt where
  path : String
  include_patterns : List String
  exclude_patterns : List String
  include_priority : Bool
  line_numbers : Bool
  absolute_paths : Bool
  full_directory_tree : Bool
  code_blocks : Bool
  follow_symlinks : Bool
  include_hidden : Bool
  _session : Option SessionConfig
deriving Repr, DecidableEq

/-- `Code2Prompt.__init__` (lines 13–44), with every parameter explicit.
The pattern parameters are optional (Python default `None`) and run through
`x or []`; `_session` is set to `None`. -/
def Code2Prompt.init (path : String)
    (include_patterns exclude_patterns : Option (List String))
    (include_priority line_numbers absolute_paths full_directory_tree
      code_blocks follow_symlinks include_hidden : Bool) : Code2Prompt :=
  { path := path
    include_patterns := pyOrList include_patterns
    exclude_patterns := pyOrList exclude_patterns
    include_priority := include_priority
    line_numbers := line_numbers
    absolute_paths := absolute_paths
    full_directory_tree := full_directory_tree
    code_blocks := code_blocks
    follow_symlinks := follow_symlinks
    include_hidden := include_hidden
    _session := none }

/-- `Code2Prompt(path)` with every keyword argument left at its Python
default (`__init__` signature, lines 13–15): no patterns,
`include_priority=False`, `line_numbers=False`, `absolute_paths=False`,
`full_directory_tree=False`, `code_blocks=True`, `follow_symlinks=False`,
`include_hidden=False`. -/
def Code2Prompt.initDefaults (path : String) : Code2Prompt :=
  Code2Prompt.init path none none false false false false true false false

/-- `Code2Prompt.session` (lines 46–67): build a fresh Rust session and
apply the stored configuration; the pattern setters are called only when
the stored list is truthy (non-empty). -/
def Code2Prompt.session (o : Code2Prompt) : SessionConfig :=
  let session := PySession.new o.path
  let session :=
    if o.include_patterns.isEmpty then session
    else PySession.includePatterns session o.include_patterns
  let session :=
    if o.exclude_patterns.isEmpty then session
    else PySession.excludePatterns session o.exclude_patterns
  let session := PySession.include_priority session o.include_priority
  let session := PySession.with_line_numbers session o.line_numbers
  let session := PySession.with_absolute_paths session o.absolute_paths
  let session := PySession.with_full_directory_tree session o.full_directory_tree
  let session := PySession.with_code_blocks session o.code_blocks
  let session := PySession.follow_symlinks session o.follow_symlinks
  let session := PySession.include_hidden session o.include_hidden
  session

/-- `self._session or self.session()` (lines 81, 108, 115): the cached
session if it is truthy (a session object always is), else a freshly built
one. -/
def Code2Prompt.sessionOr (o : Code2Prompt) : SessionConfig :=
  match o._session with
  | some s => s
  | none => Code2Prompt.session o

/-- `Code2Prompt.generate` (lines 69–104), embedded as a state transformer:
the result is paired with the object state after the call.  The method
only reads `self` (it rebinds the local `session`, never assigns an
attribute), so the returned object is the argument unchanged. -/
def Code2Prompt.generate (E : RustEngine) (o : Code2Prompt)
    (template encoding : Option String) : RenderedPrompt × Code2Prompt :=
  let session := Code2Prompt.sessionOr o
  let session := applyOptStr PySession.with_token_encoding session encoding
  let session := applyOptStr PySession.with_template session template
  let result := E.generate session
  let token_count :=
    match E.token_count session with
    | Except.ok n => n
    | Except.error _ => 0
  (⟨result, token_count, o.path, E.info session⟩, o)

/-- `Code2Prompt.token_count` (lines 106–111), embedded as a state
transformer.  There is no `try/except` here: the engine's `Except` value is
returned to the caller as is. -/
def Code2Prompt.token_count (E : RustEngine) (o : Code2Prompt)
    (encoding : Option String) : Except String Nat × Code2Prompt :=
  let session := Code2Prompt.sessionOr o
  let session := applyOptStr PySession.with_token_encoding session encoding
  (E.token_count session, o)

/-- `Code2Prompt.info` (lines 113–116), embedded as a state transformer. -/
def Code2Prompt.info (E : RustEngine) (o : Code2Prompt) :
    List (String × String) × Code2Prompt :=
  (E.info (Code2Prompt.sessionOr o), o)

/-! ## Spec-modelled engine internals

The tree walker, path matcher and token counter live in the compiled Rust
crate, not in the visible source; the following definitions are written
from the spec (§4.1, §4.2, §4.5) so that claims about hidden-file pruning
and encoding lookup can be settled. -/

/-- Path-matcher verdict (§4.1). -/
inductive MatchResult where
  | Included
  | Excluded
deriving Repr, DecidableEq

/-- Modelled from the spec: Path Matcher resolution order (§4.1).  Glob
matching itself is abstracted as a predicate `gm pattern path`; the
resolution order over the pattern sets is the part the spec fixes:
both match → `include_priority` decides; only exclude → Excluded; only
include → Included; no pattern matches → Included when no include pattern
exists at all, Excluded otherwise (include-list semantics). -/
def matcherDecision (gm : String → String → Bool) (s : SessionConfig)
    (rel : String) : MatchResult :=
  let inc := s.include_patterns.any (fun pat => gm pat rel)
  let exc := s.exclude_patterns.any (fun pat => gm pat rel)
  if inc && exc then
    if s.include_priority then MatchResult.Included else MatchResult.Excluded
  else if exc then MatchResult.Excluded
  else if inc then MatchResult.Included
  else if s.include_patterns.isEmpty then MatchResult.Included
  else MatchResult.Excluded

/-- Modelled from the spec: a directory is pruned outright only when it
matches an exclude pattern and `include_priority` does not resurrect it
(§4.2, §4.3, §8 short-circuit property). -/
def dirPruned (gm : String → String → Bool) (s : SessionConfig)
    (rel : String) : Bool :=
  let inc := s.include_patterns.any (fun pat => gm pat rel)
  let exc := s.exclude_patterns.any (fun pat => gm pat rel)
  exc && !(s.include_priority && inc)

/-- A file-system tree node: a file with content, or a directory with
children.  Relative paths are represented as component lists. -/
inductive FSTree where
  | file (name : String) (content : String)
  | dir (name : String) (children : List FSTree)
deriving Repr

/-- A name is hidden when it starts with a dot, i.e. its first character
is `.` (§3 invariant, "dot-prefixed"). -/
def isHiddenName (name : String) : Bool :=
  match name.data with
  | [] => false
  | c :: _ => c = '.'

/-- Render a component list as a slash-separated relative path (only used
to feed the abstract glob predicate). -/
def relString (comps : List String) : String :=
  String.intercalate "/" comps

mutual
/-- Modelled from the spec: Tree Walker (§4.2) on one node.  Hidden
entries are pruned unless `include_hidden`; an excluded directory
short-circuits descent; files are kept per the Path Matcher verdict.
Returns the relative paths (component lists) of the files that reach the
renderer. -/
def walkTree (gm : String → String → Bool) (s : SessionConfig)
    (pre : List String) : FSTree → List (List String)
  | FSTree.file name _content =>
    if !s.include_hidden && isHiddenName name then []
    else
      let rel := pre ++ [name]
      match matcherDecision gm s (relString rel) with
      | MatchResult.Included => [rel]
      | MatchResult.Excluded => []
  | FSTree.dir name children =>
    if !s.include_hidden && isHiddenName name then []
    else
      let rel := pre ++ [name]
      if dirPruned gm s (relString rel) then []
      else walkForest gm s rel children

/-- Modelled from the spec: Tree Walker over a list of sibling nodes, in
order (§4.4 requires stable traversal order). -/
def walkForest (gm : String → String → Bool) (s : SessionConfig)
    (pre : List String) : List FSTree → List (List String)
  | [] => []
  | t :: ts => walkTree gm s pre t ++ walkForest gm s pre ts
end

/-- Modelled from the spec: the fixed, enumerable set of supported named
token encodings (§4.5, §6; the binding docstring names `'cl100k'` and
`'gpt2'`). -/
def supportedEncodings : List String :=
  ["cl100k", "gpt2"]

/-- Modelled from the spec: default encoding used when no
`with_token_encoding` call was made. -/
def defaultEncoding : String :=
  "cl100k"

/-- Modelled from the spec: Token Counter (§4.5).  Looks the tokenizer up
by name in the fixed supported set; an unknown name is a reported error,
never a silent fallback.  The per-encoding tokenization itself is
abstracted by a deterministic character count, which suffices for the
error-path, legitimate-zero and determinism claims (the spec only fixes
that counting is a deterministic function of text and encoding). -/
def countTokens (text : String) (encodingName : String) : Except String Nat :=
  if supportedEncodings.contains encodingName then
    Except.ok text.length
  else
    Except.error ("Unsupported encoding: " ++ encodingName)

/-- Modelled from the spec: assemble a `RustEngine` from a rendering
function and an info function; `token_count` renders and counts with the
session's encoding (or the default when none was set). -/
def engineOf (render : SessionConfig → String)
    (infoOf : SessionConfig → List (String × String)) : RustEngine :=
  { generate := render
    token_count := fun cfg =>
      countTokens (render cfg) (cfg.token_encoding.getD defaultEncoding)
    info := infoOf }

/-! ## The `code2promp_rs.py` binding (VCS operations) -/

/-- Modelled from the spec: the VCS Inspector state behind the compiled
`CodePrompt` object (§4.6): the working-tree diff against the current
index, the diff between two refs, and the log between two refs, as opaque
text. -/
structure VcsRepo where
  working_tree_vs_index : String
  diff_between : String → String → String
  log_between : String → String → String

/-- Modelled from the spec: the compiled `RustCodePrompt` object that
`code2promp_rs.py` wraps; only the VCS operations are needed here. -/
structure RustCodePrompt where
  git_diff : String
  git_diff_between_branches : String → String → String
  git_log : String → String → String

/-- Modelled from the spec: the compiled object over a repository state:
`get_git_diff` with no refs is the working-tree diff against the current
index, `get_git_diff_between_branches` is the diff between the two refs
(§4.6). -/
def RustCodePrompt.ofRepo (r : VcsRepo) : RustCodePrompt :=
  { git_diff := r.working_tree_vs_index
    git_diff_between_branches := r.diff_between
    git_log := r.log_between }

/-- The `Code2Prompt` wrapper class of `code2promp_rs.py` (lines 4–30): it
stores the compiled object in `_inner`. -/
structure code2promp_rs.Code2Prompt where
  _inner : RustCodePrompt

/-- `get_git_diff` (`code2promp_rs.py` lines 23–24): delegates to the
inner object and returns its text unchanged. -/
def code2promp_rs.Code2Prompt.get_git_diff (o : code2promp_rs.Code2Prompt) : String :=
  o._inner.git_diff

/-- `get_git_diff_between_branches` (`code2promp_rs.py` lines 26–27):
delegates to the inner object and returns its text unchanged. -/
def code2promp_rs.Code2Prompt.get_git_diff_between_branches
    (o : code2promp_rs.Code2Prompt) (branch1 branch2 : String) : String :=
  o._inner.git_diff_between_branches branch1 branch2

/-- `get_git_log` (`code2promp_rs.py` lines 29–30): delegates to the inner
object and returns its text unchanged. -/
def code2promp_rs.Code2Prompt.get_git_log
    (o : code2promp_rs.Code2Prompt) (branch1 branch2 : String) : String :=
  o._inner.git_log branch1 branch2

/-! ## Claim theorems -/

/-- A concrete engine whose token counter always raises; used to witness
the error-swallowing path of `generate`. -/
def errEngine : RustEngine :=
  { generate := fun _ => "PROMPT"
    token_count := fun _ => Except.error "boom"
    info := fun _ => [] }

/-- A concrete engine whose token counter always succeeds. -/
def okEngine : RustEngine :=
  { generate := fun _ => "PROMPT"
    token_count := fun _ => Except.ok 3
    info := fun _ => [("model", "m")] }

/-- C1: in `Code2Prompt.generate`, when the session's `token_count` call
raises, the binding layer swallows the error and the returned
`RenderedPrompt` has `token_count = 0` while its `prompt` field is still
exactly the text produced by the session's `generate` call; when
`token_count` succeeds with `n`, the field equals `n`. -/
theorem C1_token_count_swallowed_in_binding (E : RustEngine) (o : Code2Prompt)
    (template encoding : Option String) :
    (∀ err : String,
        E.token_count (applyOptStr PySession.with_template
          (applyOptStr PySession.with_token_encoding (Code2Prompt.sessionOr o) encoding)
          template) = Except.error err →
        (Code2Prompt.generate E o template encoding).1.token_count = 0 ∧
        (Code2Prompt.generate E o template encoding).1.prompt
          = E.generate (applyOptStr PySession.with_template
              (applyOptStr PySession.with_token_encoding (Code2Prompt.sessionOr o) encoding)
              template)) ∧
    (∀ n : Nat,
        E.token_count (applyOptStr PySession.with_template
          (applyOptStr PySession.with_token_encoding (Code2Prompt.sessionOr o) encoding)
          template) = Except.ok n →
        (Code2Prompt.generate E o template encoding).1.token_count = n) := by
  constructor
  · intro err h
    refine ⟨?_, rfl⟩
    simp [Code2Prompt.generate, h]
  · intro n h
    simp [Code2Prompt.generate, h]

/-- C1 witness: at the concrete erroring engine and a default object, the
error branch hypothesis holds definitionally and the conclusion follows by
the theorem. -/
theorem C1_token_count_swallowed_in_binding_witness :
    (Code2Prompt.generate errEngine (Code2Prompt.initDefaults "r") none none).1.token_count = 0 ∧
    (Code2Prompt.generate errEngine (Code2Prompt.initDefaults "r") none none).1.prompt
      = errEngine.generate (applyOptStr PySession.with_template
          (applyOptStr PySession.with_token_encoding
            (Code2Prompt.sessionOr (Code2Prompt.initDefaults "r")) none) none) :=
  (C1_token_count_swallowed_in_binding errEngine
    (Code2Prompt.initDefaults "r") none none).1 "boom" rfl

/-- C2: generating twice with the same engine (i.e. an unchanged file
tree), the same object and the same template/encoding arguments yields
identical prompt text: the first call returns the object unchanged, so the
second call rebuilds the very same session and the deterministic engine
renders the very same text. -/
theorem C2_generate_idempotent (E : RustEngine) (o : Code2Prompt)
    (template encoding : Option String) :
    (Code2Prompt.generate E (Code2Prompt.generate E o template encoding).2
        template encoding).1.prompt
      = (Code2Prompt.generate E o template encoding).1.prompt := rfl

/-- C4: the `RenderedPrompt` returned by `generate` is exactly the record
of (1) the unmodified text of the session's `generate` call, (2) the
error-swallowed token count, (3) the root path the object was constructed
with, and (4) the session's `info` mapping; and `__init__` stores its
`path` argument unchanged. -/
theorem C4_rendered_prompt_components (E : RustEngine) (o : Code2Prompt)
    (template encoding : Option String) :
    (Code2Prompt.generate E o template encoding).1
      = { prompt := E.generate (applyOptStr PySession.with_template
            (applyOptStr PySession.with_token_encoding (Code2Prompt.sessionOr o) encoding)
            template)
          token_count :=
            match E.token_count (applyOptStr PySession.with_template
              (applyOptStr PySession.with_token_encoding (Code2Prompt.sessionOr o) encoding)
              template) with
            | Except.ok n => n
            | Except.error _ => 0
          directory := o.path
          model_info := E.info (applyOptStr PySession.with_template
            (applyOptStr PySession.with_token_encoding (Code2Prompt.sessionOr o) encoding)
            template) } ∧
    ∀ (p : String) (ips eps : Option (List String)) (b1 b2 b3 b4 b5 b6 b7 : Bool),
      (Code2Prompt.init p ips eps b1 b2 b3 b4 b5 b6 b7).path = p :=
  ⟨rfl, fun _ _ _ _ _ _ _ _ _ _ => rfl⟩

/-- C6: `token_count` is deterministic across repeated calls with the same
engine (unchanged tree), object and encoding argument: the first call
leaves the object unchanged and the second call returns the same value. -/
theorem C6_token_count_deterministic (E : RustEngine) (o : Code2Prompt)
    (encoding : Option String) :
    (Code2Prompt.token_count E (Code2Prompt.token_count E o encoding).2 encoding).1
      = (Code2Prompt.token_count E o encoding).1 := rfl

/-- C7: `generate`, `token_count` and `info` never mutate the stored
configuration: each returns the object unchanged, and in particular all
ten configuration attributes are preserved (each setter is applied to the
local session snapshot only). -/
theorem C7_methods_do_not_mutate (E : RustEngine) (o : Code2Prompt)
    (template encoding : Option String) :
    (Code2Prompt.generate E o template encoding).2 = o ∧
    (Code2Prompt.token_count E o encoding).2 = o ∧
    (Code2Prompt.info E o).2 = o ∧
    (Code2Prompt.generate E o template encoding).2.path = o.path ∧
    (Code2Prompt.generate E o template encoding).2.include_patterns = o.include_patterns ∧
    (Code2Prompt.generate E o template encoding).2.exclude_patterns = o.exclude_patterns ∧
    (Code2Prompt.generate E o template encoding).2.include_priority = o.include_priority ∧
    (Code2Prompt.generate E o template encoding).2.line_numbers = o.line_numbers ∧
    (Code2Prompt.generate E o template encoding).2.absolute_paths = o.absolute_paths ∧
    (Code2Prompt.generate E o template encoding).2.full_directory_tree = o.full_directory_tree ∧
    (Code2Prompt.generate E o template encoding).2.code_blocks = o.code_blocks ∧
    (Code2Prompt.generate E o template encoding).2.follow_symlinks = o.follow_symlinks ∧
    (Code2Prompt.generate E o template encoding).2.include_hidden = o.include_hidden :=
  ⟨rfl, rfl, rfl, rfl, rfl, rfl, rfl, rfl, rfl, rfl, rfl, rfl, rfl⟩

/-- C8: the VCS diff bindings delegate and return the inner text
unchanged: `get_git_diff` (no arguments) yields the working-tree diff
against the current index, and `get_git_diff_between_branches` yields the
diff between the two given refs. -/
theorem C8_git_diff_delegation (r : VcsRepo) (branch1 branch2 : String) :
    code2promp_rs.Code2Prompt.get_git_diff ⟨RustCodePrompt.ofRepo r⟩
      = r.working_tree_vs_index ∧
    code2promp_rs.Code2Prompt.get_git_diff_between_branches
        ⟨RustCodePrompt.ofRepo r⟩ branch1 branch2
      = r.diff_between branch1 branch2 :=
  ⟨rfl, rfl⟩

/-! ## Hidden-entry pruning invariant of the walker -/

mutual
/-- Helper: with `include_hidden = false`, every path the walker yields
from one node under a dot-free prefix is dot-free. -/
theorem walkTree_no_hidden (gm : String → String → Bool) (s : SessionConfig)
    (hs : s.include_hidden = false) :
    ∀ (t : FSTree) (pre p : List String),
      pre.any isHiddenName = false → p ∈ walkTree gm s pre t →
      p.any isHiddenName = false
  | FSTree.file name _content, pre, p, hpre, hp => by
    simp only [walkTree, hs, Bool.not_false, Bool.true_and] at hp
    by_cases h : isHiddenName name = true
    · rw [if_pos h] at hp
      exact absurd hp (List.not_mem_nil p)
    · rw [if_neg h] at hp
      split at hp
      · have hp2 : p = pre ++ [name] := by simpa using hp
        subst hp2
        simp [List.any_append, hpre, h]
      · exact absurd hp (List.not_mem_nil p)
  | FSTree.dir name children, pre, p, hpre, hp => by
    simp only [walkTree, hs, Bool.not_false, Bool.true_and] at hp
    by_cases h : isHiddenName name = true
    · rw [if_pos h] at hp
      exact absurd hp (List.not_mem_nil p)
    · rw [if_neg h] at hp
      split at hp
      · exact absurd hp (List.not_mem_nil p)
      · exact walkForest_no_hidden gm s hs children (pre ++ [name]) p
          (by simp [List.any_append, hpre, h]) hp

/-- Helper: with `include_hidden = false`, every path the walker yields
from a sibling list under a dot-free prefix is dot-free. -/
theorem walkForest_no_hidden (gm : String → String → Bool) (s : SessionConfig)
    (hs : s.include_hidden = false) :
    ∀ (ts : List FSTree) (pre p : List String),
      pre.any isHiddenName = false → p ∈ walkForest gm s pre ts →
      p.any isHiddenName = false
  | [], _pre, p, _hpre, hp => by
    simp only [walkForest] at hp
    exact absurd hp (List.not_mem_nil p)
  | t :: ts, pre, p, hpre, hp => by
    simp only [walkForest, List.mem_append] at hp
    cases hp with
    | inl h1 =>
      exact walkTree_no_hidden gm s hs t pre p hpre h1
    | inr h2 =>
      exact walkForest_no_hidden gm s hs ts pre p hpre h2
end

/-- The file tree of the spec's §8 example: `lowercase/foo.py` next to a
dot-prefixed directory holding `.secret/secret.txt`. -/
def exampleRoot : List FSTree :=
  [FSTree.dir "lowercase"
     [FSTree.file "foo.py" "x = 1\ny = 2\n"],
   FSTree.dir ".secret"
     [FSTree.file "secret.txt" "SECRET"]]

/-- Glob predicate used when a configuration has no patterns at all (it is
then never consulted). -/
def noGlob : String → String → Bool := fun _ _ => false

/-- C5: a `Code2Prompt` constructed with the Python defaults stores
`include_hidden = False`; `session()` configures the session with exactly
the stored flag; with the flag off, a file under a dot-prefixed directory
is never among the files the walker hands to the renderer, whatever the
patterns; and with the flag on, the §8 example's `.secret/secret.txt` is
walked. -/
theorem C5_include_hidden_toggle (p : String) (gm : String → String → Bool)
    (s : SessionConfig) (root : List FSTree) (q : List String)
    (hs : s.include_hidden = false) (hq : q.any isHiddenName = true) :
    (Code2Prompt.initDefaults p).include_hidden = false ∧
    (∀ o : Code2Prompt, (Code2Prompt.session o).include_hidden = o.include_hidden) ∧
    q ∉ walkForest gm s [] root ∧
    [".secret", "secret.txt"] ∈
      walkForest noGlob
        (Code2Prompt.session
          { Code2Prompt.initDefaults "root" with include_hidden := true })
        [] exampleRoot := by
  refine ⟨rfl, fun o => rfl, ?_, ?_⟩
  · intro hmem
    have h0 : ([] : List String).any isHiddenName = false := rfl
    have hfree := walkForest_no_hidden gm s hs root [] q h0 hmem
    rw [hfree] at hq
    exact Bool.false_ne_true hq
  · decide

/-- C5 witness: at the default-configuration session over the §8 example
tree, the hidden path is absent; flipping the flag makes it appear. -/
theorem C5_include_hidden_toggle_witness :
    (Code2Prompt.session (Code2Prompt.initDefaults "root")).include_hidden = false ∧
    [".secret", "secret.txt"].any isHiddenName = true ∧
    [".secret", "secret.txt"] ∉
      walkForest noGlob (Code2Prompt.session (Code2Prompt.initDefaults "root"))
        [] exampleRoot ∧
    [".secret", "secret.txt"] ∈
      walkForest noGlob
        (Code2Prompt.session
          { Code2Prompt.initDefaults "root" with include_hidden := true })
        [] exampleRoot :=
  ⟨by decide, by decide,
   (C5_include_hidden_toggle "root" noGlob
      (Code2Prompt.session (Code2Prompt.initDefaults "root")) exampleRoot
      [".secret", "secret.txt"] (by decide) (by decide)).2.2.1,
   (C5_include_hidden_toggle "root" noGlob
      (Code2Prompt.session (Code2Prompt.initDefaults "root")) exampleRoot
      [".secret", "secret.txt"] (by decide) (by decide)).2.2.2⟩

/-- C3: requesting an encoding name outside the fixed supported set makes
`Code2Prompt.token_count` surface the error itself to the caller — there
is no silent fallback to a default count or to zero — while a legitimate
zero-token result comes back as the integer `0`. -/
theorem C3_unknown_encoding_surfaces
    (render : SessionConfig → String)
    (infoOf : SessionConfig → List (String × String))
    (o : Code2Prompt) (name : String)
    (hunk : supportedEncodings.contains name = false)
    (hne : name.isEmpty = false) :
    (Code2Prompt.token_count (engineOf render infoOf) o (some name)).1
      = Except.error ("Unsupported encoding: " ++ name) ∧
    ∀ o2 : Code2Prompt,
      (Code2Prompt.token_count (engineOf (fun _ => "") infoOf) o2 (some "cl100k")).1
        = Except.ok 0 := by
  constructor
  · have hm : name ∉ supportedEncodings := by simpa using hunk
    simp [Code2Prompt.token_count, engineOf, applyOptStr, hne, countTokens, hunk, hm,
      PySession.with_token_encoding]
  · intro o2
    rfl

/-- C3 witness: the concrete unknown name `bogus` is outside the supported
set and the error surfaces verbatim. -/
theorem C3_unknown_encoding_surfaces_witness :
    supportedEncodings.contains "bogus" = false ∧
    "bogus".isEmpty = false ∧
    (Code2Prompt.token_count (engineOf (fun _ => "T") (fun _ => []))
        (Code2Prompt.initDefaults "r") (some "bogus")).1
      = Except.error ("Unsupported encoding: " ++ "bogus") :=
  ⟨by decide, by decide,
   (C3_unknown_encoding_surfaces (fun _ => "T") (fun _ => [])
      (Code2Prompt.initDefaults "r") "bogus" (by decide) (by decide)).1⟩

/-- Helper: with no cached session, `self._session or self.session()` is
the freshly built session. -/
theorem sessionOr_eq_session (o : Code2Prompt) (h : o._session = none) :
    Code2Prompt.sessionOr o = Code2Prompt.session o := by
  simp only [Code2Prompt.sessionOr, h]

/-- C9: `_session` is `None` at construction and no method assigns it, so
`self._session or self.session()` builds a fresh session from the current
attributes on every `generate`, `token_count` and `info` call; hence a
configuration change between calls (here: `include_hidden`) takes effect
on the next call. -/
theorem C9_no_session_caching (E : RustEngine) (o : Code2Prompt)
    (template encoding : Option String) (b : Bool)
    (h : o._session = none) :
    (∀ (p : String) (ips eps : Option (List String)) (b1 b2 b3 b4 b5 b6 b7 : Bool),
      (Code2Prompt.init p ips eps b1 b2 b3 b4 b5 b6 b7)._session = none) ∧
    Code2Prompt.sessionOr o = Code2Prompt.session o ∧
    (Code2Prompt.generate E o template encoding).2._session = o._session ∧
    (Code2Prompt.token_count E o encoding).2._session = o._session ∧
    (Code2Prompt.info E o).2._session = o._session ∧
    (Code2Prompt.sessionOr { o with include_hidden := b }).include_hidden = b := by
  refine ⟨fun _ _ _ _ _ _ _ _ _ _ => rfl, sessionOr_eq_session o h, rfl, rfl, rfl, ?_⟩
  rw [sessionOr_eq_session { o with include_hidden := b } h]
  rfl

/-- C9 witness: a freshly constructed object has no cached session, and a
flag flipped on the object is reflected in the session the next call
builds. -/
theorem C9_no_session_caching_witness :
    (Code2Prompt.initDefaults "r")._session = none ∧
    (Code2Prompt.sessionOr
        { Code2Prompt.initDefaults "r" with include_hidden := true }).include_hidden
      = true :=
  ⟨rfl,
   (C9_no_session_caching okEngine (Code2Prompt.initDefaults "r")
      none none true rfl).2.2.2.2.2⟩

/-- C10: falsy arguments are normalized and skipped: `None` and `[]`
pattern arguments construct identical objects; with empty stored pattern
lists, `session()` skips both pattern setters, so the built session has no
patterns and the Path Matcher then includes every path (empty include list
means no include filtering); and in `generate` / `token_count` a `None` or
empty-string template or encoding argument leaves the session untouched. -/
theorem C10_falsy_arguments (E : RustEngine) (o : Code2Prompt) (p : String)
    (eps : Option (List String)) (b1 b2 b3 b4 b5 b6 b7 : Bool)
    (template encoding : Option String)
    (gm : String → String → Bool) (rel : String)
    (hinc : o.include_patterns = []) (hexc : o.exclude_patterns = []) :
    Code2Prompt.init p none eps b1 b2 b3 b4 b5 b6 b7
      = Code2Prompt.init p (some []) eps b1 b2 b3 b4 b5 b6 b7 ∧
    (Code2Prompt.session o).include_patterns = [] ∧
    (Code2Prompt.session o).exclude_patterns = [] ∧
    matcherDecision gm (Code2Prompt.session o) rel = MatchResult.Included ∧
    Code2Prompt.generate E o (some "") encoding
      = Code2Prompt.generate E o none encoding ∧
    Code2Prompt.generate E o template (some "")
      = Code2Prompt.generate E o template none ∧
    Code2Prompt.token_count E o (some "")
      = Code2Prompt.token_count E o none := by
  have hsi : (Code2Prompt.session o).include_patterns = [] := by
    simp [Code2Prompt.session, hinc, hexc, PySession.new,
      PySession.includePatterns, PySession.excludePatterns,
      PySession.include_priority, PySession.with_line_numbers,
      PySession.with_absolute_paths, PySession.with_full_directory_tree,
      PySession.with_code_blocks, PySession.follow_symlinks,
      PySession.include_hidden]
  have hse : (Code2Prompt.session o).exclude_patterns = [] := by
    simp [Code2Prompt.session, hinc, hexc, PySession.new,
      PySession.includePatterns, PySession.excludePatterns,
      PySession.include_priority, PySession.with_line_numbers,
      PySession.with_absolute_paths, PySession.with_full_directory_tree,
      PySession.with_code_blocks, PySession.follow_symlinks,
      PySession.include_hidden]
  refine ⟨rfl, hsi, hse, ?_, rfl, rfl, rfl⟩
  simp [matcherDecision, hsi, hse]

/-- C10 witness: at the default construction the stored lists are empty
and the matcher passes an arbitrary concrete path. -/
theorem C10_falsy_arguments_witness :
    (Code2Prompt.initDefaults "r").include_patterns = [] ∧
    (Code2Prompt.initDefaults "r").exclude_patterns = [] ∧
    matcherDecision noGlob (Code2Prompt.session (Code2Prompt.initDefaults "r")) "a/b.py"
      = MatchResult.Included :=
  ⟨rfl, rfl,
   (C10_falsy_arguments okEngine (Code2Prompt.initDefaults "r") "p" none
      false false false false false false false none none noGlob "a/b.py"
      rfl rfl).2.2.2.1⟩
